import Mathlib

/-!
# engio: engine.io / socket.io protocol engine

A shallow embedding of `engine/server.go`, `engine/client.go` and `client.go`.

Stateful Go code is written as explicit state passing.  Every call made to a
collaborator (acceptor, session registry, session, callbacks) is recorded, in
program order, in a list of `Call`s returned next to the new state, so that
"is called", "is not called" and "in that order" become statements about that
list.  A Go panic is the `Except.error` branch of the result where one can
occur.  Goroutines are not run: starting one is recorded as a spawned task.
-/

set_option linter.dupNamespace false

namespace Engine

/-! ## Shared data (package `engine`) -/

/-- Go `error` values of package `engine`: the sentinel `ErrInvalidPayload`
and every other error, identified by its message. -/
inductive Error
  | ErrInvalidPayload
  | other (msg : String)
  deriving DecidableEq, Repr

/-- The method `err.Error()`.  The text of the sentinel is declared outside the
translated files and is taken as the parameter `sentinelText`. -/
def Error.Error (sentinelText : String) : Error → String
  | .ErrInvalidPayload => sentinelText
  | .other msg => msg

/-- Two's complement wrap-around of a 64-bit signed integer (`int64`,
`time.Duration`). -/
def wrapInt64 (x : Int) : Int := (x + 2 ^ 63) % 2 ^ 64 - 2 ^ 63

/-- The constant `time.Millisecond`, in nanoseconds. -/
def Millisecond : Int := 1000000

/-- A `Conn` is an opaque handle to a transport connection. -/
structure Conn where
  handle : Nat
  deriving DecidableEq, Repr

/-- The handshake record `Parameters` carried by the `open` packet. -/
structure Parameters where
  SID : String
  Upgrades : List String
  PingInterval : Int
  PingTimeout : Int
  deriving DecidableEq, Repr

/-- The three query values `ServeHTTP` reads from a request:
`query.Get(queryEIO)`, `query.Get(queryTransport)`, `query.Get(querySession)`.
An absent value is the empty string, as `url.Values.Get` returns. -/
structure Request where
  eio : String
  transport : String
  sid : String
  deriving DecidableEq, Repr

/-- The `Acceptor` capability: `Transport()` and `Accept(w, r)`. -/
structure Acceptor where
  Transport : String
  Accept : Request → Except Error Conn

/-- Modelled from the spec: the `session` type is declared outside the
translated files.  A Session has an identifier, a current Connection, a current
transport name, a pause flag and read/write deadline durations. -/
structure Session where
  id : String
  transport : String
  conn : Conn
  paused : Bool
  readTimeout : Int
  writeTimeout : Int
  deriving DecidableEq, Repr

/-- Modelled from the spec: `session.Pause` sets the pause flag
(`Active → Paused`). -/
def Session.Pause (sess : Session) : Session := { sess with paused := true }

/-- Modelled from the spec: `session.upgrade` swaps the Session's Connection
reference to the new one, on the new transport. -/
def Session.upgrade (sess : Session) (transport : String) (conn : Conn) : Session :=
  { sess with transport := transport, conn := conn }

/-- Modelled from the spec: `session.Resume` clears the pause flag
(`Paused → Active`). -/
def Session.Resume (sess : Session) : Session := { sess with paused := false }

/-- Modelled from the spec: the `sessionManager` type is declared outside the
translated files.  It is the Session Registry, a store mapping session
identifier to Session. -/
abbrev sessionManager := List Session

/-- Modelled from the spec: `sessionManager.Get` looks a session up by its
identifier. -/
def sessionManager.Get (m : sessionManager) (sid : String) : Option Session :=
  m.find? (fun sess => sess.id == sid)

/-- Modelled from the spec: `sessionManager.NewSession` creates a Session on
`conn` with the given deadlines, under the identifier `sid` the registry
assigns, and stores it under that key (a Go map keeps one entry per key). -/
def sessionManager.NewSession (m : sessionManager) (sid : String) (conn : Conn)
    (readTimeout writeTimeout : Int) : Session × sessionManager :=
  let sess : Session :=
    { id := sid, transport := "", conn := conn, paused := false,
      readTimeout := readTimeout, writeTimeout := writeTimeout }
  (sess, m.filter (fun x => x.id != sid) ++ [sess])

/-- In-place mutation through the session pointer: the registry entry of `sid`
is replaced by `f` of it. -/
def sessionManager.modify (f : Session → Session) (sid : String) :
    sessionManager → sessionManager
  | [] => []
  | sess :: rest =>
    if sess.id == sid then f sess :: rest else sess :: sessionManager.modify f sid rest

/-- A Go channel as far as the sequential code sees it: whether it has been
closed and what has been sent on it. -/
structure Chan (α : Type) where
  closed : Bool
  sent : List α
  deriving DecidableEq, Repr

/-- The state of a `Server`.  The session channel `ßchan` is `sschan`. -/
structure Server where
  pingInterval : Int
  pingTimeout : Int
  sschan : Chan String
  done : Chan Unit
  once : Bool
  sessions : sessionManager
  deriving DecidableEq, Repr

/-- What surrounds the server: the constant `Version`, the acceptor table
behind `getAcceptor`, the identifier the registry gives the next session, and
the text of the sentinel error. -/
structure Env where
  Version : String
  getAcceptor : String → Option Acceptor
  nextSid : sessionManager → String
  sentinelText : String

/-- Calls `ServeHTTP` makes to its collaborators. -/
inductive Call
  | getAcceptor (name : String)
  | registryGet (sid : String)
  | Transport (name : String)
  | Accept (transport : String)
  | NewSession (sid : String)
  | EmitOpen (sid : String) (param : Parameters)
  | chanSend (sid : String)
  | Pause (sid : String)
  | upgrade (sid : String) (transport : String) (conn : Conn)
  | Resume (sid : String)
  | sessionServeHTTP (sid : String)
  deriving DecidableEq, Repr

/-- How the request was answered. -/
inductive Reply
  | httpError (msg : String) (code : Nat)
  | servedBy (sid : String)
  | panicked (msg : String)
  deriving DecidableEq, Repr

/-- Does the call create, mutate or serve a session, or ask an acceptor to
accept a connection. -/
def Call.touchesSession : Call → Bool
  | .Accept _ => true
  | .NewSession _ => true
  | .EmitOpen _ _ => true
  | .chanSend _ => true
  | .Pause _ => true
  | .upgrade _ _ _ => true
  | .Resume _ => true
  | .sessionServeHTTP _ => true
  | _ => false

/-- The outcome of one `ServeHTTP`. -/
structure Served where
  server : Server
  calls : List Call
  reply : Reply
  deriving DecidableEq, Repr

def StatusBadRequest : Nat := 400

def StatusInternalServerError : Nat := 500

/-- `Server.ServeHTTP` of `engine/server.go`.  The log line is not part of the
state.  A send on the session channel that would block is not modelled; a send
on the closed channel panics. -/
def Server.ServeHTTP (env : Env) (s : Server) (r : Request) : Served :=
  if r.eio ≠ env.Version then
    ⟨s, [], .httpError "protocol version incompatible" StatusBadRequest⟩
  else
    match env.getAcceptor r.transport with
    | none =>
      ⟨s, [.getAcceptor r.transport], .httpError "invalid transport" StatusBadRequest⟩
    | some acceptor =>
      if r.sid = "" then
        match acceptor.Accept r with
        | .error err =>
          ⟨s, [.getAcceptor r.transport, .Accept acceptor.Transport],
            .httpError (err.Error env.sentinelText) StatusInternalServerError⟩
        | .ok conn =>
          let sid := env.nextSid s.sessions
          let created := s.sessions.NewSession sid conn
            (wrapInt64 (s.pingTimeout + s.pingInterval)) s.pingTimeout
          let m := sessionManager.modify
            (fun sess => { sess with transport := acceptor.Transport }) sid created.2
          let param : Parameters :=
            { SID := created.1.id, Upgrades := ["websocket"],
              PingInterval := Int.tdiv s.pingInterval Millisecond,
              PingTimeout := Int.tdiv s.pingTimeout Millisecond }
          let calls : List Call :=
            [.getAcceptor r.transport, .Accept acceptor.Transport, .NewSession sid,
              .Transport acceptor.Transport, .EmitOpen sid param]
          if s.sschan.closed then
            ⟨{ s with sessions := m }, calls, .panicked "send on closed channel"⟩
          else
            ⟨{ s with sessions := m,
                      sschan := { s.sschan with sent := s.sschan.sent ++ [sid] } },
              calls ++ [.chanSend sid, .sessionServeHTTP sid], .servedBy sid⟩
      else
        match s.sessions.Get r.sid with
        | none =>
          ⟨s, [.getAcceptor r.transport, .registryGet r.sid],
            .httpError "invalid session" StatusBadRequest⟩
        | some sess =>
          let transport := acceptor.Transport
          if sess.transport ≠ transport then
            match acceptor.Accept r with
            | .error err =>
              ⟨s, [.getAcceptor r.transport, .registryGet r.sid, .Transport transport,
                    .Accept transport],
                .httpError (err.Error env.sentinelText) StatusInternalServerError⟩
            | .ok conn =>
              let m1 := sessionManager.modify Session.Pause sess.id s.sessions
              let m2 := sessionManager.modify (fun x => x.upgrade transport conn) sess.id m1
              let m3 := sessionManager.modify Session.Resume sess.id m2
              ⟨{ s with sessions := m3 },
                [.getAcceptor r.transport, .registryGet r.sid, .Transport transport,
                  .Accept transport, .Pause sess.id, .upgrade sess.id transport conn,
                  .Resume sess.id, .sessionServeHTTP sess.id],
                .servedBy sess.id⟩
          else
            ⟨s, [.getAcceptor r.transport, .registryGet r.sid, .Transport transport,
                  .sessionServeHTTP sess.id],
              .servedBy sess.id⟩

/-- Goroutines started by the constructors. -/
inductive Task
  | emitterLoop
  | sessionLoop
  | pingLoop
  | readLoop
  deriving DecidableEq, Repr

/-- `NewServer` of `engine/server.go`: the server it returns and the goroutines
it starts. -/
def NewServer (interval timeout : Int) : Server × List Task :=
  ({ pingInterval := interval, pingTimeout := timeout,
     sschan := { closed := false, sent := [] },
     done := { closed := false, sent := [] },
     once := false, sessions := [] },
   [.emitterLoop, .sessionLoop])

/-- Teardown steps of the two `Close` methods. -/
inductive Teardown
  | closeDone
  | closeSschan
  | closeCloseChan
  | connClose (conn : Conn)
  deriving DecidableEq, Repr

/-- The builtin `close(ch)`: closing a closed channel panics. -/
def Chan.close {α : Type} (ch : Chan α) : Except String (Chan α) :=
  if ch.closed then .error "close of closed channel" else .ok { ch with closed := true }

/-- `Server.Close` of `engine/server.go`.  `s.once.Do(f)` runs `f` on the
first call only.  The result is the new state, the teardown steps run and the
returned `err`. -/
def Server.Close (s : Server) : Except String (Server × List Teardown × Option Error) :=
  if s.once then
    .ok (s, [], none)
  else
    match s.done.close with
    | .error msg => .error msg
    | .ok done =>
      match s.sschan.close with
      | .error msg => .error msg
      | .ok sschan =>
        .ok ({ s with once := true, done := done, sschan := sschan },
             [.closeDone, .closeSschan], none)

/-- Control-layer packet kinds. -/
inductive PacketType
  | Open
  | Close
  | Ping
  | Pong
  | Message
  | Upgrade
  | Noop
  deriving DecidableEq, Repr

/-- A control-layer `Packet`: the fields `Dial` reads. -/
structure Packet where
  pktType : PacketType
  data : List Nat
  deriving DecidableEq, Repr

/-- The `Socket` built by `Dial`.  Its event handler table starts empty
(`newEventHandlers()`); `eventHandlers` lists the events that have a handler. -/
structure Socket where
  Conn : Conn
  eventHandlers : List String
  readTimeout : Int
  writeTimeout : Int
  deriving DecidableEq, Repr

/-- The `Client` of `engine/client.go`. -/
structure Client where
  Socket : Socket
  id : String
  pingInterval : Int
  pingTimeout : Int
  closeChan : Chan Unit
  once : Bool
  deriving DecidableEq, Repr

/-- What `Dial` consumes: the dialer, the connection's first `ReadPacket`, and
`json.Unmarshal` into `Parameters`. -/
structure DialEnv where
  Dial : String → Except Error Conn
  ReadPacket : Conn → Except Error Packet
  Unmarshal : List Nat → Except Error Parameters

/-- The outcome of `Dial`: the named results `c` and `err`, and the goroutines
started. -/
structure Dialed where
  c : Option Client
  err : Option Error
  spawned : List Task
  deriving DecidableEq, Repr

/-- `Dial` of `engine/client.go`.  `time.Duration(n) * time.Millisecond` is a
64-bit signed multiplication. -/
def Dial (env : DialEnv) (rawurl : String) : Dialed :=
  match env.Dial rawurl with
  | .error err => ⟨none, some err, []⟩
  | .ok conn =>
    match env.ReadPacket conn with
    | .error err => ⟨none, some err, []⟩
    | .ok p =>
      if p.pktType ≠ PacketType.Open then
        ⟨none, some Error.ErrInvalidPayload, []⟩
      else
        match env.Unmarshal p.data with
        | .error err => ⟨none, some err, []⟩
        | .ok param =>
          let pingInterval := wrapInt64 (param.PingInterval * Millisecond)
          let pingTimeout := wrapInt64 (param.PingTimeout * Millisecond)
          let closeChan : Chan Unit := { closed := false, sent := [] }
          let so : Socket :=
            { Conn := conn, eventHandlers := [], readTimeout := pingTimeout,
              writeTimeout := pingTimeout }
          ⟨some { Socket := so, pingInterval := pingInterval, pingTimeout := pingTimeout,
                  closeChan := closeChan, id := param.SID, once := false },
            none, [.pingLoop, .readLoop]⟩

/-- `Client.Id` of `engine/client.go`. -/
def Client.Id (c : Client) : String := c.id

/-- `Client.Close` of `engine/client.go`: under `c.once`, close the close
channel, then `err = c.Conn.Close()`, whose result is `connClose`. -/
def Client.Close (connClose : Conn → Option Error) (c : Client) :
    Except String (Client × List Teardown × Option Error) :=
  if c.once then
    .ok (c, [], none)
  else
    match c.closeChan.close with
    | .error msg => .error msg
    | .ok closeChan =>
      .ok ({ c with once := true, closeChan := closeChan },
           [.closeCloseChan, .connClose c.Socket.Conn], connClose c.Socket.Conn)

/-- A sequence of `n` calls of a `Close` method: the final state, all teardown
steps run, in order, and the `err` each call returned, in order. -/
def closeTimes {σ : Type} (close : σ → Except String (σ × List Teardown × Option Error)) :
    Nat → σ → Except String (σ × List Teardown × List (Option Error))
  | 0, s => .ok (s, [], [])
  | n + 1, s =>
    match close s with
    | .error msg => .error msg
    | .ok (s1, steps, err) =>
      match closeTimes close n s1 with
      | .error msg => .error msg
      | .ok (s2, steps2, errs) => .ok (s2, steps ++ steps2, err :: errs)

end Engine

namespace Socketio

/-! ## Package `socketio` (`client.go`) -/

/-- Go `error` values of package `socketio`: the sentinel `ErrUnknownPacket`
and every other error, identified by its message. -/
inductive Err
  | ErrUnknownPacket
  | other (msg : String)
  deriving DecidableEq, Repr

/-- Application-layer packet kinds; `unknown` is any value outside the seven
declared constants. -/
inductive PacketType
  | Connect
  | Disconnect
  | Event
  | Ack
  | Error
  | BinaryEvent
  | BinaryAck
  | unknown (code : Nat)
  deriving DecidableEq, Repr

/-- The field `Packet.Data`, an `interface{}`: `nil`, a single application
value, or a slice of application values. -/
inductive Data
  | nil
  | value (v : String)
  | values (vs : List String)
  deriving DecidableEq, Repr

/-- An application-layer `Packet`: the fields `process` uses.  `Typ` is the Go
field `Type`; `ID` is a pointer, `none` when nil. -/
structure Packet where
  Typ : PacketType
  Namespace : String
  ID : Option Nat
  Data : Data
  deriving DecidableEq, Repr

/-- A registered callback, identified by a handle. -/
abbrev Handler := Nat

/-- The Go type `namespace`: its handler table `callbacks`, from event name to
callback. -/
structure Nspace where
  callbacks : List (String × Handler)
  deriving DecidableEq, Repr

/-- A `reflect.Value` returned by a handler, with the value its `Interface()`
gives. -/
structure RValue where
  iface : String
  deriving DecidableEq, Repr

def RValue.Interface (v : RValue) : String := v.iface

/-- Modelled from the spec: the `socket` type is declared outside the
translated files.  It records which namespaces are attached and the optional
disconnect and error callbacks. -/
structure Socket where
  attached : List String
  onDisconnect : Option Handler
  onError : Option Handler
  deriving DecidableEq, Repr

/-- Modelled from the spec: `socket.attachnsp` marks the namespace as
attached. -/
def Socket.attachnsp (sock : Socket) (nsp : String) : Socket :=
  { sock with attached := nsp :: sock.attached.filter (fun n => n != nsp) }

/-- Modelled from the spec: `socket.detachnsp` marks the namespace as
detached. -/
def Socket.detachnsp (sock : Socket) (nsp : String) : Socket :=
  { sock with attached := sock.attached.filter (fun n => n != nsp) }

/-- Modelled from the spec: `newClientSocket` gives a socket with nothing
attached and no callback registered. -/
def newClientSocket : Socket := { attached := [], onDisconnect := none, onError := none }

/-- The `Client` of `client.go`.  `nsps` is a Go map: `none` is the nil map.
`onConnect` and `onError` are `none` when nil. -/
structure Client where
  engine : Engine.Client
  socket : Socket
  nsps : Option (List (String × Nspace))
  onConnect : Option Handler
  onError : Option Handler
  deriving DecidableEq, Repr

/-- `Dial` of `client.go`.  The struct literal sets `engine`, `socket` and
`onConnect`; every other field keeps its zero value.  The two callbacks it
registers with `e.On` are recorded in the engine socket's handler table.  A nil
`e` with a nil `err` would be dereferenced, which panics. -/
def Dial (env : Engine.DialEnv) (rawurl : String) (onConnect : Option Handler) :
    Except String (Option Client × Option Engine.Error) :=
  let r := Engine.Dial env rawurl
  match r.err with
  | some err => .ok (none, some err)
  | none =>
    match r.c with
    | none => .error "invalid memory address or nil pointer dereference"
    | some e =>
      let socket := newClientSocket
      let e1 : Engine.Client :=
        { e with Socket := { e.Socket with
            eventHandlers := e.Socket.eventHandlers ++ ["EventMessage", "EventClose"] } }
      .ok (some { engine := e1, socket := socket, nsps := none,
                  onConnect := onConnect, onError := none }, none)

/-- `Client.Sid` of `client.go`. -/
def Client.Sid (c : Client) : String := c.engine.Id

/-- `Client.OnError` of `client.go`. -/
def Client.OnError (c : Client) (fn : Option Handler) : Client := { c with onError := fn }

/-- `Client.getnsp` of `client.go`: reading a nil map finds nothing. -/
def Client.getnsp (c : Client) (nsp : String) : Option Nspace :=
  match c.nsps with
  | none => none
  | some m => m.lookup nsp

/-- `Client.creatensp` of `client.go`.  The assignment `c.nsps[nsp] = n` panics
on a nil map.  The result is the namespace returned and the client after the
call. -/
def Client.creatensp (c : Client) (nsp : String) : Except String (Nspace × Client) :=
  match c.getnsp nsp with
  | some n => .ok (n, c)
  | none =>
    let n : Nspace := { callbacks := [] }
    match c.nsps with
    | none => .error "assignment to entry in nil map"
    | some m =>
      .ok (n, { c with nsps := some ((nsp, n) :: m.filter (fun kv => kv.1 != nsp)) })

/-- `Client.Namespace` of `client.go`. -/
def Client.Namespace (c : Client) (nsp : String) : Except String (Nspace × Client) :=
  c.creatensp nsp

/-- The argument handed to the engine-level error callback `c.onError`, an
`interface{}`: an error, or a packet's data. -/
inductive ErrArg
  | err (e : Err)
  | data (d : Data)
  deriving DecidableEq, Repr

/-- Calls `process` makes to its collaborators. -/
inductive Call
  | attachnsp (nsp : String)
  | onConnect (nsp : String)
  | detachnsp (nsp : String)
  | onDisconnect (nsp : String)
  | sockOnError (nsp : String) (e : Err)
  | onError (arg : ErrArg)
  | fireEvent (nsp : String) (event : String) (data : List Nat) (bin : List (List Nat))
  | ack (p : Packet)
  | fireAck (nsp : String) (id : Nat) (data : List Nat) (bin : List (List Nat))
  deriving DecidableEq, Repr

/-- What `process` consumes: the decoder's `ParseData` (event name, data,
binary attachments), the namespace's `fireEvent` (the handler's reply values,
`none` for a nil slice, or its failure) and the result of `sock.ack`. -/
structure ProcEnv where
  ParseData : Packet → Except Err (String × List Nat × List (List Nat))
  fireEvent : Nspace → String → List Nat → List (List Nat) → Except Err (Option (List RValue))
  ack : Packet → Option Err

/-- The loop `d := make([]interface{}, len(v)); for i := range d { d[i] =
v[i].Interface() }`. -/
def interfaces (v : List RValue) : List String :=
  (List.range v.length).map (fun i => (v.getD i { iface := "" }).Interface)

/-- The call `c.onError(x)` guarded by `c.onError != nil`. -/
def Client.reportError (c : Client) (arg : ErrArg) : List Call :=
  match c.onError with
  | none => []
  | some _ => [.onError arg]

/-- The report `if err != nil { if c.onError != nil { c.onError(err) } }` of
a call's result `r`. -/
def Client.reportIfErr (c : Client) (r : Option Err) : List Call :=
  match r with
  | none => []
  | some err => c.reportError (.err err)

/-- The call `sock.onError(nsp, err)` guarded by `sock.onError != nil`. -/
def Socket.reportError (sock : Socket) (nsp : String) (e : Err) : List Call :=
  match sock.onError with
  | none => []
  | some _ => [.sockOnError nsp e]

/-- `Client.process` of `client.go`.  The result is the socket after the call,
the packet after the call (the code assigns `p.Data`) and the calls made, in
order. -/
def Client.process (env : ProcEnv) (c : Client) (sock : Socket) (p : Packet) :
    Socket × Packet × List Call :=
  match c.getnsp p.Namespace with
  | none => (sock, p, [])
  | some nsp =>
    match p.Typ with
    | .Connect =>
      (sock.attachnsp p.Namespace, p,
        .attachnsp p.Namespace ::
          (match c.onConnect with
           | none => []
           | some _ => [.onConnect p.Namespace]))
    | .Disconnect =>
      (sock.detachnsp p.Namespace, p,
        .detachnsp p.Namespace ::
          (match sock.onDisconnect with
           | none => []
           | some _ => [.onDisconnect p.Namespace]))
    | .Event | .BinaryEvent =>
      match env.ParseData p with
      | .error err => (sock, p, sock.reportError p.Namespace err)
      | .ok (event, data, bin) =>
        if event = "" then
          (sock, p, [])
        else
          match env.fireEvent nsp event data bin with
          | .error err =>
            (sock, p, .fireEvent p.Namespace event data bin :: c.reportError (.err err))
          | .ok v =>
            match p.ID with
            | none => (sock, p, [.fireEvent p.Namespace event data bin])
            | some _ =>
              let p1 : Packet :=
                match v with
                | none => { p with Data := .nil }
                | some vs => { p with Data := .values (interfaces vs) }
              (sock, p1,
                [.fireEvent p.Namespace event data bin, .ack p1] ++
                  c.reportIfErr (env.ack p1))
    | .Ack | .BinaryAck =>
      match p.ID with
      | none => (sock, p, [])
      | some id =>
        match env.ParseData p with
        | .error err => (sock, p, sock.reportError p.Namespace err)
        | .ok (_, data, bin) => (sock, p, [.fireAck p.Namespace id data bin])
    | .Error => (sock, p, c.reportError (.data p.Data))
    | .unknown _ => (sock, p, c.reportError (.err .ErrUnknownPacket))

end Socketio

/-! ## Concrete collaborators used to run the definitions -/

namespace Engine

def pollingAcceptor : Acceptor :=
  { Transport := "polling", Accept := fun _ => .ok ⟨1⟩ }

def websocketAcceptor : Acceptor :=
  { Transport := "websocket", Accept := fun _ => .ok ⟨2⟩ }

def refusingAcceptor : Acceptor :=
  { Transport := "websocket", Accept := fun _ => .error (.other "upgrade refused") }

def acceptorTable (ws : Acceptor) (name : String) : Option Acceptor :=
  if name = "polling" then some pollingAcceptor
  else if name = "websocket" then some ws
  else none

def exampleEnv : Env :=
  { Version := "3", getAcceptor := acceptorTable websocketAcceptor,
    nextSid := fun m => toString m.length, sentinelText := "invalid payload" }

def refusingEnv : Env :=
  { exampleEnv with getAcceptor := acceptorTable refusingAcceptor }

def exampleSession : Session :=
  { id := "abc123", transport := "polling", conn := ⟨1⟩, paused := false,
    readTimeout := 30000000000, writeTimeout := 5000000000 }

def exampleServer : Server :=
  { (NewServer 25000000000 5000000000).1 with sessions := [exampleSession] }

/-- A dialer whose connection first yields the packet `p`, and whose payload
decoder yields `param` on every payload. -/
def handshakeEnv (p : Packet) (param : Parameters) : DialEnv :=
  { Dial := fun _ => .ok ⟨7⟩, ReadPacket := fun _ => .ok p, Unmarshal := fun _ => .ok param }

def openPacket : Packet := { pktType := .Open, data := [123, 125] }

def pongPacket : Packet := { pktType := .Pong, data := [] }

def exampleParam : Parameters :=
  { SID := "abc123", Upgrades := ["websocket"], PingInterval := 25000, PingTimeout := 5000 }

def exampleClient : Client :=
  { Socket := { Conn := ⟨7⟩, eventHandlers := [], readTimeout := 5000000000,
                writeTimeout := 5000000000 },
    id := "abc123", pingInterval := 25000000000, pingTimeout := 5000000000,
    closeChan := { closed := false, sent := [] }, once := false }

def hugeParam : Parameters :=
  { SID := "abc123", Upgrades := [], PingInterval := 9223372036855, PingTimeout := 5000 }

/-- Does `n` milliseconds fit a `time.Duration` (64-bit signed nanoseconds). -/
def fitsDuration (n : Int) : Prop := -(2 ^ 63) ≤ n * Millisecond ∧ n * Millisecond < 2 ^ 63

instance (n : Int) : Decidable (fitsDuration n) := by
  unfold fitsDuration; infer_instance

end Engine

namespace Socketio

/-- A client with the namespace "/chat" registered, one handler for the event
"msg", and an error callback. -/
def chatClient : Client :=
  { engine := Engine.exampleClient, socket := newClientSocket,
    nsps := some [("/chat", { callbacks := [("msg", 1)] })],
    onConnect := none, onError := some 9 }

def chatPacket : Packet :=
  { Typ := .Event, Namespace := "/chat", ID := some 7, Data := .values ["msg", "hi"] }

def errorPacket (nsp : String) : Packet :=
  { Typ := .Error, Namespace := nsp, ID := none, Data := .value "boom" }

/-- A decoder that takes the event name from the head of the data, handlers
that reply `["ok"]`, and an ack sender that succeeds. -/
def chatEnv : ProcEnv :=
  { ParseData := fun p =>
      match p.Data with
      | .values (event :: _) => .ok (event, [], [])
      | _ => .error (.other "invalid data"),
    fireEvent := fun _ _ _ _ => .ok (some [{ iface := "ok" }]),
    ack := fun _ => none }

/-- Is the call a reply handed to the ack sender `sock.ack`. -/
def Call.isAck : Call → Bool
  | .ack _ => true
  | _ => false

end Socketio

/-! ## Theorems -/

namespace Engine

theorem modify_of_get {m : sessionManager} {sid : String} {sess : Session}
    (f : Session → Session) (h : m.Get sid = some sess) :
    (sessionManager.modify f sid m).length = m.length := by
  induction m with
  | nil => rfl
  | cons x rest ih =>
    unfold sessionManager.modify
    by_cases hx : (x.id == sid) = true
    · simp [hx]
    · simp only [hx]
      have : sessionManager.Get rest sid = some sess := by
        simpa [sessionManager.Get, List.find?, hx] using h
      simp [ih this]

theorem get_id {m : sessionManager} {sid : String} {sess : Session}
    (h : m.Get sid = some sess) : sess.id = sid := by
  have := List.find?_some h
  simpa using this

theorem get_modify {m : sessionManager} {sid : String} {sess : Session}
    (f : Session → Session) (hf : ∀ x, (f x).id = x.id) (h : m.Get sid = some sess) :
    (sessionManager.modify f sid m).Get sid = some (f sess) := by
  induction m with
  | nil => simp [sessionManager.Get] at h
  | cons x rest ih =>
    unfold sessionManager.modify
    by_cases hx : (x.id == sid) = true
    · have hxs : x.id = sid := by simpa using hx
      have : x = sess := by simpa [sessionManager.Get, List.find?, hx] using h
      subst this
      simp [sessionManager.Get, List.find?, hxs, hf]
    · have hrest : sessionManager.Get rest sid = some sess := by
        simpa [sessionManager.Get, List.find?, hx] using h
      have := ih hrest
      simp only [sessionManager.Get] at this
      simp [hx, sessionManager.Get, List.find?, this]

theorem get_modify_other {m : sessionManager} {sid other : String}
    (f : Session → Session) (hf : ∀ x, (f x).id = x.id) (hne : other ≠ sid) :
    (sessionManager.modify f sid m).Get other = m.Get other := by
  induction m with
  | nil => rfl
  | cons x rest ih =>
    unfold sessionManager.modify
    by_cases hx : (x.id == sid) = true
    · have hxs : x.id = sid := by simpa using hx
      have h1 : ((f x).id == other) = false := by
        rw [hf, hxs]; simpa using fun h => hne h.symm
      have h2 : (x.id == other) = false := by
        rw [hxs]; simpa using fun h => hne h.symm
      simp [hx, sessionManager.Get, List.find?, h1, h2]
    · simp only [sessionManager.Get] at ih
      simp only [hx, sessionManager.Get, List.find?]
      cases hxo : (x.id == other) <;> simp [ih]

/-- C1: a request with accepted version and transport whose non-empty session
id is not in the registry is answered with the 400 failure "invalid session";
the server state (registry included) is unchanged, the only calls made are the
acceptor lookup and the registry lookup, so nothing is accepted, created,
paused, upgraded, resumed or served. -/
theorem serveHTTP_unknown_session (env : Env) (s : Server) (r : Request) (acceptor : Acceptor)
    (hver : r.eio = env.Version) (hacc : env.getAcceptor r.transport = some acceptor)
    (hsid : r.sid ≠ "") (hreg : s.sessions.Get r.sid = none) :
    (s.ServeHTTP env r).reply = .httpError "invalid session" 400 ∧
    (s.ServeHTTP env r).server = s ∧
    (s.ServeHTTP env r).calls = [.getAcceptor r.transport, .registryGet r.sid] ∧
    ∀ c ∈ (s.ServeHTTP env r).calls, c.touchesSession = false := by
  have h : s.ServeHTTP env r =
      ⟨s, [.getAcceptor r.transport, .registryGet r.sid],
        .httpError "invalid session" StatusBadRequest⟩ := by
    simp [Server.ServeHTTP, hver, hacc, hsid, hreg]
  rw [h]
  refine ⟨rfl, rfl, rfl, ?_⟩
  intro c hc
  simp only [List.mem_cons, List.mem_singleton, List.not_mem_nil, or_false] at hc
  rcases hc with rfl | rfl <;> rfl

theorem serveHTTP_unknown_session_witness :
    (⟨"3", "polling", "nope"⟩ : Request).eio = exampleEnv.Version ∧
    (⟨"3", "polling", "nope"⟩ : Request).sid ≠ "" ∧
    exampleServer.sessions.Get "nope" = none ∧
    (exampleServer.ServeHTTP exampleEnv ⟨"3", "polling", "nope"⟩).reply
      = .httpError "invalid session" 400 ∧
    (exampleServer.ServeHTTP exampleEnv ⟨"3", "polling", "nope"⟩).server = exampleServer :=
  have h := serveHTTP_unknown_session exampleEnv exampleServer ⟨"3", "polling", "nope"⟩
    pollingAcceptor rfl rfl (by decide) (by decide)
  ⟨rfl, by decide, by decide, h.1, h.2.1⟩

/-- C2: a request whose protocol-version query value differs from `Version`
is answered with the 400 failure "protocol version incompatible", whatever its
transport and session id; no call at all is made (no acceptor lookup, no
registry read, no Accept, no session call) and the server state is unchanged. -/
theorem serveHTTP_version_mismatch (env : Env) (s : Server) (r : Request)
    (hver : r.eio ≠ env.Version) :
    (s.ServeHTTP env r).reply = .httpError "protocol version incompatible" 400 ∧
    (s.ServeHTTP env r).calls = [] ∧
    (s.ServeHTTP env r).server = s := by
  simp [Server.ServeHTTP, hver, StatusBadRequest]

theorem serveHTTP_version_mismatch_witness :
    (⟨"2", "websocket", "abc123"⟩ : Request).eio ≠ exampleEnv.Version ∧
    (exampleServer.ServeHTTP exampleEnv ⟨"2", "websocket", "abc123"⟩).reply
      = .httpError "protocol version incompatible" 400 ∧
    (exampleServer.ServeHTTP exampleEnv ⟨"2", "websocket", "abc123"⟩).calls = [] ∧
    (exampleServer.ServeHTTP exampleEnv ⟨"2", "websocket", "abc123"⟩).server = exampleServer :=
  ⟨by decide,
    serveHTTP_version_mismatch exampleEnv exampleServer ⟨"2", "websocket", "abc123"⟩
      (by decide)⟩

/-- C8: a request with accepted version and transport that names a session
present in the registry.  If the acceptor's transport name differs from the
session's current transport and Accept succeeds with `conn`, then Pause,
upgrade(transport, conn), Resume are applied to that session, once each and in
that order; NewSession is not called, nothing is sent on the session channel,
the registry keeps its size and every other session.  If the transport name
equals the session's current transport, neither Accept nor Pause, upgrade,
Resume is called and the server state is unchanged.  In both cases the request
is then served by that session. -/
theorem serveHTTP_existing_session (env : Env) (s : Server) (r : Request)
    (acceptor : Acceptor) (sess : Session)
    (hver : r.eio = env.Version) (hacc : env.getAcceptor r.transport = some acceptor)
    (hsid : r.sid ≠ "") (hreg : s.sessions.Get r.sid = some sess) :
    (∀ conn, acceptor.Transport ≠ sess.transport → acceptor.Accept r = .ok conn →
      (s.ServeHTTP env r).calls =
        [.getAcceptor r.transport, .registryGet r.sid, .Transport acceptor.Transport,
          .Accept acceptor.Transport, .Pause r.sid,
          .upgrade r.sid acceptor.Transport conn, .Resume r.sid,
          .sessionServeHTTP r.sid] ∧
      (s.ServeHTTP env r).reply = .servedBy r.sid ∧
      (s.ServeHTTP env r).server.sessions.Get r.sid =
        some ((sess.Pause.upgrade acceptor.Transport conn).Resume) ∧
      (∀ other, other ≠ r.sid →
        (s.ServeHTTP env r).server.sessions.Get other = s.sessions.Get other) ∧
      (s.ServeHTTP env r).server.sessions.length = s.sessions.length ∧
      (s.ServeHTTP env r).server.sschan = s.sschan) ∧
    (acceptor.Transport = sess.transport →
      (s.ServeHTTP env r).calls =
        [.getAcceptor r.transport, .registryGet r.sid, .Transport acceptor.Transport,
          .sessionServeHTTP r.sid] ∧
      (s.ServeHTTP env r).reply = .servedBy r.sid ∧
      (s.ServeHTTP env r).server = s) := by
  have hid : sess.id = r.sid := get_id hreg
  constructor
  · intro conn hne hok
    have hne2 : sess.transport ≠ acceptor.Transport := fun h => hne h.symm
    have h : s.ServeHTTP env r =
        ⟨{ s with sessions := (sessionManager.modify Session.Resume r.sid
              (sessionManager.modify (fun x => x.upgrade acceptor.Transport conn) r.sid
                (sessionManager.modify Session.Pause r.sid s.sessions))) },
          [.getAcceptor r.transport, .registryGet r.sid, .Transport acceptor.Transport,
            .Accept acceptor.Transport, .Pause r.sid,
            .upgrade r.sid acceptor.Transport conn, .Resume r.sid,
            .sessionServeHTTP r.sid],
          .servedBy r.sid⟩ := by
      simp [Server.ServeHTTP, hver, hacc, hsid, hreg, hne2, hok, hid]
    rw [h]
    have g1 := get_modify Session.Pause (fun _ => rfl) hreg
    have g2 := get_modify (fun x => x.upgrade acceptor.Transport conn) (fun _ => rfl) g1
    have g3 := get_modify Session.Resume (fun _ => rfl) g2
    refine ⟨rfl, rfl, g3, ?_, ?_, rfl⟩
    · intro other ho
      show sessionManager.Get _ other = _
      rw [get_modify_other Session.Resume (fun _ => rfl) ho,
        get_modify_other (fun x => x.upgrade acceptor.Transport conn) (fun _ => rfl) ho,
        get_modify_other Session.Pause (fun _ => rfl) ho]
    · show List.length _ = _
      rw [modify_of_get Session.Resume g2,
        modify_of_get (fun x => x.upgrade acceptor.Transport conn) g1,
        modify_of_get Session.Pause hreg]
  · intro heq
    have h : s.ServeHTTP env r =
        ⟨s, [.getAcceptor r.transport, .registryGet r.sid, .Transport acceptor.Transport,
            .sessionServeHTTP r.sid], .servedBy r.sid⟩ := by
      simp [Server.ServeHTTP, hver, hacc, hsid, hreg, heq, hid]
    rw [h]
    exact ⟨rfl, rfl, rfl⟩

theorem serveHTTP_existing_session_witness :
    exampleServer.sessions.Get "abc123" = some exampleSession ∧
    (exampleServer.ServeHTTP exampleEnv ⟨"3", "websocket", "abc123"⟩).calls =
      [.getAcceptor "websocket", .registryGet "abc123", .Transport "websocket",
        .Accept "websocket", .Pause "abc123", .upgrade "abc123" "websocket" ⟨2⟩,
        .Resume "abc123", .sessionServeHTTP "abc123"] ∧
    (exampleServer.ServeHTTP exampleEnv ⟨"3", "websocket", "abc123"⟩).reply
      = .servedBy "abc123" ∧
    (exampleServer.ServeHTTP exampleEnv ⟨"3", "websocket", "abc123"⟩).server.sessions
      = [{ exampleSession with transport := "websocket", conn := ⟨2⟩ }] :=
  have h := (serveHTTP_existing_session exampleEnv exampleServer ⟨"3", "websocket", "abc123"⟩
    websocketAcceptor exampleSession rfl rfl (by decide) (by decide)).1 ⟨2⟩ (by decide) rfl
  ⟨by decide, h.1, h.2.1, by decide⟩

/-- C9: a request that names an existing session on a different transport and
whose Accept fails with `err` is answered with the 500 failure carrying
`err.Error()`; the server state is unchanged (the session keeps its pause flag,
transport name and connection), Pause, upgrade and Resume are not called, and
the session's ServeHTTP is not invoked. -/
theorem serveHTTP_upgrade_accept_fails (env : Env) (s : Server) (r : Request)
    (acceptor : Acceptor) (sess : Session) (err : Error)
    (hver : r.eio = env.Version) (hacc : env.getAcceptor r.transport = some acceptor)
    (hsid : r.sid ≠ "") (hreg : s.sessions.Get r.sid = some sess)
    (hne : acceptor.Transport ≠ sess.transport) (hfail : acceptor.Accept r = .error err) :
    (s.ServeHTTP env r).reply = .httpError (err.Error env.sentinelText) 500 ∧
    (s.ServeHTTP env r).server = s ∧
    (s.ServeHTTP env r).server.sessions.Get r.sid = some sess ∧
    (s.ServeHTTP env r).calls =
      [.getAcceptor r.transport, .registryGet r.sid, .Transport acceptor.Transport,
        .Accept acceptor.Transport] := by
  have hne2 : sess.transport ≠ acceptor.Transport := fun h => hne h.symm
  have h : s.ServeHTTP env r =
      ⟨s, [.getAcceptor r.transport, .registryGet r.sid, .Transport acceptor.Transport,
          .Accept acceptor.Transport],
        .httpError (err.Error env.sentinelText) StatusInternalServerError⟩ := by
    simp [Server.ServeHTTP, hver, hacc, hsid, hreg, hne2, hfail]
  rw [h]
  exact ⟨rfl, rfl, hreg, rfl⟩

theorem serveHTTP_upgrade_accept_fails_witness :
    exampleServer.sessions.Get "abc123" = some exampleSession ∧
    refusingAcceptor.Transport ≠ exampleSession.transport ∧
    (exampleServer.ServeHTTP refusingEnv ⟨"3", "websocket", "abc123"⟩).reply
      = .httpError "upgrade refused" 500 ∧
    (exampleServer.ServeHTTP refusingEnv ⟨"3", "websocket", "abc123"⟩).server
      = exampleServer :=
  have h := serveHTTP_upgrade_accept_fails refusingEnv exampleServer
    ⟨"3", "websocket", "abc123"⟩ refusingAcceptor exampleSession (.other "upgrade refused")
    rfl rfl (by decide) (by decide) (by decide) rfl
  ⟨by decide, by decide, h.1, h.2.1⟩

theorem wrapInt64_of_fits (x : Int) (h1 : -(2 ^ 63) ≤ x) (h2 : x < 2 ^ 63) :
    wrapInt64 x = x := by
  unfold wrapInt64
  omega

/-- C3: when the dialer succeeds and the connection's first ReadPacket yields
a packet `p`: if `p` is not of kind open, Dial returns no client, the error
`ErrInvalidPayload`, and starts no goroutine (neither the ping loop nor the read
loop); if `p` is of kind open and its payload decodes as Parameters, Dial
returns a client and no error. -/
theorem dial_first_packet (env : DialEnv) (rawurl : String) (conn : Conn) (p : Packet)
    (hdial : env.Dial rawurl = .ok conn) (hread : env.ReadPacket conn = .ok p) :
    (p.pktType ≠ PacketType.Open →
      (Dial env rawurl).c = none ∧
      (Dial env rawurl).err = some Error.ErrInvalidPayload ∧
      (Dial env rawurl).spawned = []) ∧
    (∀ param, p.pktType = PacketType.Open → env.Unmarshal p.data = .ok param →
      (∃ c, (Dial env rawurl).c = some c) ∧ (Dial env rawurl).err = none) := by
  constructor
  · intro hne
    simp [Dial, hdial, hread, hne]
  · intro param hopen hdec
    simp [Dial, hdial, hread, hopen, hdec]

theorem dial_first_packet_witness :
    pongPacket.pktType ≠ PacketType.Open ∧
    (Dial (handshakeEnv pongPacket exampleParam) "ws://host").c = none ∧
    (Dial (handshakeEnv pongPacket exampleParam) "ws://host").err
      = some Error.ErrInvalidPayload ∧
    (Dial (handshakeEnv pongPacket exampleParam) "ws://host").spawned = [] :=
  ⟨by decide,
    (dial_first_packet (handshakeEnv pongPacket exampleParam) "ws://host" ⟨7⟩ pongPacket
      rfl rfl).1 (by decide)⟩

/-- C4, as stated, fails: an open packet whose payload decodes to
PingInterval = 9223372036855 gives a client whose ping interval is
-9223372036854551616 nanoseconds, not 9223372036855 milliseconds. -/
theorem dial_ping_interval_overflow :
    (hugeParam.PingInterval = 9223372036855 ∧
      ((Dial (handshakeEnv openPacket hugeParam) "ws://host").c.map Client.pingInterval)
        = some (-9223372036854551616)) ∧
    (-9223372036854551616 : Int) ≠ 9223372036855 * Millisecond := by
  refine ⟨⟨rfl, ?_⟩, by decide⟩
  simp [Dial, handshakeEnv, openPacket, hugeParam, wrapInt64, Millisecond]

/-- C4, amended: for every open packet whose payload decodes to Parameters
with SID = s, PingInterval = i, PingTimeout = t, the client Dial returns has
session id (Client.Id) exactly s; if i milliseconds fits a 64-bit Duration its
ping interval is i milliseconds; if t milliseconds fits a 64-bit Duration its
ping timeout, socket read timeout and socket write timeout are all t
milliseconds. -/
theorem dial_parameters (env : DialEnv) (rawurl : String) (conn : Conn) (p : Packet)
    (param : Parameters)
    (hdial : env.Dial rawurl = .ok conn) (hread : env.ReadPacket conn = .ok p)
    (hopen : p.pktType = PacketType.Open) (hdec : env.Unmarshal p.data = .ok param) :
    ∃ c, (Dial env rawurl).c = some c ∧ (Dial env rawurl).err = none ∧
      c.Id = param.SID ∧
      (fitsDuration param.PingInterval →
        c.pingInterval = param.PingInterval * Millisecond) ∧
      (fitsDuration param.PingTimeout →
        c.pingTimeout = param.PingTimeout * Millisecond ∧
        c.Socket.readTimeout = param.PingTimeout * Millisecond ∧
        c.Socket.writeTimeout = param.PingTimeout * Millisecond) := by
  have h : Dial env rawurl =
      ⟨some { Socket := { Conn := conn, eventHandlers := [],
                          readTimeout := wrapInt64 (param.PingTimeout * Millisecond),
                          writeTimeout := wrapInt64 (param.PingTimeout * Millisecond) },
              pingInterval := wrapInt64 (param.PingInterval * Millisecond),
              pingTimeout := wrapInt64 (param.PingTimeout * Millisecond),
              closeChan := { closed := false, sent := [] }, id := param.SID,
              once := false },
        none, [.pingLoop, .readLoop]⟩ := by
    simp [Dial, hdial, hread, hopen, hdec]
  rw [h]
  refine ⟨_, rfl, rfl, rfl, ?_, ?_⟩
  · intro h
    exact wrapInt64_of_fits _ h.1 h.2
  · intro h
    have := wrapInt64_of_fits _ h.1 h.2
    exact ⟨this, this, this⟩

theorem dial_parameters_witness :
    ∃ c, (Dial (handshakeEnv openPacket exampleParam) "ws://host").c = some c ∧
      c.Id = "abc123" ∧
      c.pingInterval = 25000 * Millisecond ∧
      c.pingTimeout = 5000 * Millisecond ∧
      c.Socket.readTimeout = 5000 * Millisecond ∧
      c.Socket.writeTimeout = 5000 * Millisecond :=
  match dial_parameters (handshakeEnv openPacket exampleParam) "ws://host" ⟨7⟩ openPacket
    exampleParam rfl rfl rfl rfl with
  | ⟨c, hc, _, hid, hi, ht⟩ => ⟨c, hc, hid, hi (by decide), ht (by decide)⟩

theorem closeTimes_client_done (connClose : Conn → Option Error) (c : Client)
    (h : c.once = true) (k : Nat) :
    closeTimes (Client.Close connClose) k c = .ok (c, [], List.replicate k none) := by
  induction k with
  | zero => rfl
  | succ k ih => simp [closeTimes, Client.Close, h, ih, List.replicate_succ]

theorem closeTimes_server_done (s : Server) (h : s.once = true) (k : Nat) :
    closeTimes Server.Close k s = .ok (s, [], List.replicate k none) := by
  induction k with
  | zero => rfl
  | succ k ih => simp [closeTimes, Server.Close, h, ih, List.replicate_succ]

/-- C6: on a client whose once-guard has not fired and whose close channel is
open (as Dial builds it), `n ≥ 1` calls of Client.Close run without panic,
close the close channel once and call the connection's Close once, both in the
first call, and every later call returns no error.  On a server whose
once-guard has not fired and whose done and session channels are open (as
NewServer builds it), `n ≥ 1` calls of Server.Close run without panic, close
the done channel and the session channel once each, and every call returns no
error. -/
theorem close_idempotent (connClose : Conn → Option Error) (c : Client) (s : Server)
    (n : Nat) (hn : 1 ≤ n)
    (hc : c.once = false ∧ c.closeChan.closed = false)
    (hs : s.once = false ∧ s.done.closed = false ∧ s.sschan.closed = false) :
    closeTimes (Client.Close connClose) n c =
      .ok ({ c with once := true, closeChan := { c.closeChan with closed := true } },
           [.closeCloseChan, .connClose c.Socket.Conn],
           connClose c.Socket.Conn :: List.replicate (n - 1) none) ∧
    closeTimes Server.Close n s =
      .ok ({ s with once := true, done := { s.done with closed := true },
                    sschan := { s.sschan with closed := true } },
           [.closeDone, .closeSschan], List.replicate n none) := by
  obtain ⟨m, rfl⟩ : ∃ m, n = m + 1 := ⟨n - 1, by omega⟩
  obtain ⟨hc1, hc2⟩ := hc
  obtain ⟨hs1, hs2, hs3⟩ := hs
  constructor
  · have hdone := closeTimes_client_done connClose
      { c with once := true, closeChan := { c.closeChan with closed := true } } rfl m
    simp [closeTimes, Client.Close, Chan.close, hc1, hc2, hdone]
  · have hdone := closeTimes_server_done
      { s with once := true, done := { s.done with closed := true },
               sschan := { s.sschan with closed := true } } rfl m
    simp [closeTimes, Server.Close, Chan.close, hs1, hs2, hs3, hdone, List.replicate_succ]

theorem close_idempotent_witness :
    closeTimes (Client.Close (fun _ => some (.other "broken pipe"))) 3 exampleClient =
      .ok ({ exampleClient with once := true, closeChan := { closed := true, sent := [] } },
           [.closeCloseChan, .connClose ⟨7⟩],
           [some (.other "broken pipe"), none, none]) ∧
    closeTimes Server.Close 3 exampleServer =
      .ok ({ exampleServer with once := true, done := { closed := true, sent := [] },
                                sschan := { closed := true, sent := [] } },
           [.closeDone, .closeSschan], [none, none, none]) :=
  close_idempotent (fun _ => some (.other "broken pipe")) exampleClient exampleServer 3
    (by decide) ⟨rfl, rfl⟩ ⟨rfl, rfl, rfl⟩

end Engine

namespace Socketio

theorem interfaces_eq_map (v : List RValue) : interfaces v = v.map RValue.Interface := by
  unfold interfaces
  apply List.ext_getElem
  · simp
  · intro i h1 h2
    simp at h1
    simp [List.getD_eq_getElem, h1]

theorem filter_isAck_reportIfErr (c : Client) (r : Option Err) :
    (c.reportIfErr r).filter Call.isAck = [] := by
  cases r <;> cases h : c.onError <;>
    simp [Client.reportIfErr, Client.reportError, h, Call.isAck]

/-- C5: `process` on an event or binary-event packet `p` of a registered
namespace, whose data parses to a non-empty event name and whose handler
succeeds with reply values `v`.  If `p` carries an acknowledgement id, exactly
one reply is handed to `sock.ack`; it carries the id and the namespace of `p`,
and its data are the values of `v`, in order and of the same length (nil when
`v` is nil).  If `p` carries no acknowledgement id, nothing is handed to
`sock.ack`. -/
theorem process_event_reply (env : ProcEnv) (c : Client) (sock : Socket) (p : Packet)
    (nsp : Nspace) (event : String) (data : List Nat) (bin : List (List Nat))
    (v : Option (List RValue))
    (htyp : p.Typ = .Event ∨ p.Typ = .BinaryEvent)
    (hnsp : c.getnsp p.Namespace = some nsp)
    (hparse : env.ParseData p = .ok (event, data, bin))
    (hevent : event ≠ "")
    (hfire : env.fireEvent nsp event data bin = .ok v) :
    (p.ID ≠ none →
      ∃ reply, (c.process env sock p).2.2.filter Call.isAck = [.ack reply] ∧
        reply.ID = p.ID ∧ reply.Namespace = p.Namespace ∧
        (∀ vs, v = some vs →
          reply.Data = .values (vs.map RValue.Interface) ∧
          (vs.map RValue.Interface).length = vs.length) ∧
        (v = none → reply.Data = .nil)) ∧
    (p.ID = none → (c.process env sock p).2.2.filter Call.isAck = []) := by
  constructor
  · intro hid
    obtain ⟨id, hid⟩ := Option.ne_none_iff_exists'.mp hid
    cases v with
    | none =>
      refine ⟨{ p with Data := .nil }, ?_, rfl, rfl, ?_, fun _ => rfl⟩
      · have hcalls : (c.process env sock p).2.2 =
            [.fireEvent p.Namespace event data bin, .ack { p with Data := .nil }] ++
              c.reportIfErr (env.ack { p with Data := .nil }) := by
          rcases htyp with h | h <;>
            simp [Client.process, hnsp, h, hparse, hevent, hfire, hid]
        rw [hcalls]
        simp [filter_isAck_reportIfErr, Call.isAck]
      · intro vs hvs
        cases hvs
    | some vs =>
      refine ⟨{ p with Data := .values (interfaces vs) }, ?_, rfl, rfl, ?_, ?_⟩
      · have hcalls : (c.process env sock p).2.2 =
            [.fireEvent p.Namespace event data bin,
              .ack { p with Data := .values (interfaces vs) }] ++
              c.reportIfErr (env.ack { p with Data := .values (interfaces vs) }) := by
          rcases htyp with h | h <;>
            simp [Client.process, hnsp, h, hparse, hevent, hfire, hid]
        rw [hcalls]
        simp [filter_isAck_reportIfErr, Call.isAck]
      · intro ws hws
        cases hws
        exact ⟨by rw [interfaces_eq_map], by simp⟩
      · intro h
        cases h
  · intro hid
    rcases htyp with h | h <;>
      simp [Client.process, hnsp, h, hparse, hevent, hfire, hid, Call.isAck]

theorem process_event_reply_witness :
    (chatClient.process chatEnv newClientSocket chatPacket).2.2 =
      [.fireEvent "/chat" "msg" [] [],
        .ack { Typ := .Event, Namespace := "/chat", ID := some 7, Data := .values ["ok"] }] ∧
    ∃ reply, (chatClient.process chatEnv newClientSocket chatPacket).2.2.filter Call.isAck
        = [.ack reply] ∧
      reply.ID = some 7 ∧ reply.Namespace = "/chat" ∧
      reply.Data = .values ["ok"] :=
  ⟨by decide,
    match (process_event_reply chatEnv chatClient newClientSocket chatPacket
      { callbacks := [("msg", 1)] } "msg" [] [] (some [{ iface := "ok" }])
      (Or.inl rfl) (by decide) rfl (by decide) rfl).1 (by decide) with
    | ⟨reply, h1, h2, h3, h4, _⟩ => ⟨reply, h1, h2, h3, (h4 _ rfl).1⟩⟩

theorem dial_leaves_nsps_nil (env : Engine.DialEnv) (rawurl : String)
    (onConnect : Option Handler) (c : Client) (err : Option Engine.Error)
    (h : Dial env rawurl onConnect = .ok (some c, err)) : c.nsps = none := by
  unfold Dial at h
  cases herr : (Engine.Dial env rawurl).err with
  | some e => simp [herr] at h
  | none =>
    cases hc : (Engine.Dial env rawurl).c with
    | none => simp [herr, hc] at h
    | some e =>
      simp only [herr, hc, Except.ok.injEq, Prod.mk.injEq, Option.some.injEq] at h
      rw [← h.1]

theorem namespace_on_nil_map_panics (c : Client) (name : String) (h : c.nsps = none) :
    c.Namespace name = .error "assignment to entry in nil map" := by
  simp [Client.Namespace, Client.creatensp, Client.getnsp, h]

theorem lookup_filter_other (m : List (String × Nspace)) (name other : String)
    (hne : other ≠ name) :
    (m.filter (fun kv => kv.1 != name)).lookup other = m.lookup other := by
  induction m with
  | nil => rfl
  | cons kv rest ih =>
    by_cases hk : kv.1 = name
    · have hko : (other == kv.1) = false := by rw [hk]; simpa using hne
      cases kv with
      | mk k n =>
        simp only at hk hko
        simp [List.filter, hk, List.lookup, hko, ih, hk ▸ hko]
    · cases kv with
      | mk k n =>
        simp only at hk
        have hkn : (k != name) = true := by simpa using hk
        simp only [List.filter, hkn, List.lookup]
        cases hko : (other == k) <;> simp [ih]

/-- On a client whose map `nsps` has been made, `Namespace` behaves as the
namespace registry should: the call succeeds, a namespace it creates has an
empty handler table, the name is then found by `getnsp`, a second call returns
the same namespace and leaves the client as it is, and no other name is
affected. -/
theorem namespace_on_made_map (c : Client) (m : List (String × Nspace)) (name : String)
    (h : c.nsps = some m) :
    ∃ n c1, c.Namespace name = .ok (n, c1) ∧
      (c.getnsp name = none → n.callbacks = []) ∧
      c1.getnsp name = some n ∧
      c1.Namespace name = .ok (n, c1) ∧
      ∀ other, other ≠ name → c1.getnsp other = c.getnsp other := by
  cases hl : m.lookup name with
  | some n =>
    have hg : c.getnsp name = some n := by simp [Client.getnsp, h, hl]
    refine ⟨n, c, ?_, ?_, hg, ?_, fun _ _ => rfl⟩
    · simp [Client.Namespace, Client.creatensp, hg]
    · intro h0
      rw [hg] at h0
      cases h0
    · simp [Client.Namespace, Client.creatensp, hg]
  | none =>
    have hg : c.getnsp name = none := by simp [Client.getnsp, h, hl]
    have hg1 : Client.getnsp
        { c with nsps := some ((name, { callbacks := [] }) ::
            m.filter (fun kv => kv.1 != name)) } name = some { callbacks := [] } := by
      simp [Client.getnsp, List.lookup]
    refine ⟨{ callbacks := [] },
      { c with nsps := some ((name, { callbacks := [] }) ::
          m.filter (fun kv => kv.1 != name)) }, ?_, fun _ => rfl, hg1, ?_, ?_⟩
    · simp [Client.Namespace, Client.creatensp, hg, h]
    · simp [Client.Namespace, Client.creatensp, hg1]
    · intro other hne
      have hb : (other == name) = false := by simpa using hne
      simp [Client.getnsp, h, List.lookup, hb, lookup_filter_other m name other hne]

/-- C7, the code at the failing input: `Dial` succeeds and leaves the map
`nsps` nil; looking a namespace up on that client finds nothing, and the first
`Namespace("/chat")` panics on the assignment into the nil map instead of
creating the namespace. -/
theorem namespace_after_dial_panics :
    ∃ c, Dial (Engine.handshakeEnv Engine.openPacket Engine.exampleParam) "ws://host" none
        = .ok (some c, none) ∧
      c.nsps = none ∧
      c.getnsp "/chat" = none ∧
      c.Namespace "/chat" = .error "assignment to entry in nil map" :=
  ⟨_, rfl, rfl, rfl, rfl⟩

/-- C10, as stated, fails: with the error callback registered, an error packet
of the namespace "/admin", which is not registered on the client, is dropped;
the error callback is not invoked. -/
theorem process_error_unregistered_dropped :
    chatClient.onError = some 9 ∧
    (errorPacket "/admin").Typ = .Error ∧
    chatClient.process chatEnv newClientSocket (errorPacket "/admin")
      = (newClientSocket, errorPacket "/admin", []) := by
  decide

/-- C10, amended: `process` on a packet `p` of kind error whose namespace is
registered on the client, with the error callback registered, invokes the
engine-level error callback exactly once, with the data of `p` unchanged, and
does nothing else: no other call is made, and the socket and the packet are
unchanged. -/
theorem process_error_packet (env : ProcEnv) (c : Client) (sock : Socket) (p : Packet)
    (nsp : Nspace) (fn : Handler)
    (htyp : p.Typ = .Error)
    (hnsp : c.getnsp p.Namespace = some nsp)
    (hcb : c.onError = some fn) :
    c.process env sock p = (sock, p, [.onError (.data p.Data)]) := by
  simp [Client.process, hnsp, htyp, Client.reportError, hcb]

theorem process_error_packet_witness :
    chatClient.getnsp "/chat" = some { callbacks := [("msg", 1)] } ∧
    chatClient.process chatEnv newClientSocket (errorPacket "/chat")
      = (newClientSocket, errorPacket "/chat", [.onError (.data (.value "boom"))]) :=
  ⟨by decide,
    process_error_packet chatEnv chatClient newClientSocket (errorPacket "/chat")
      { callbacks := [("msg", 1)] } 9 rfl (by decide) rfl⟩

end Socketio
